import Mathlib

/-!
Verification of the MCP structure/architecture scoring engine and file guard

Shallow embedding of the scoring engine (`src/tools/structure_inspector.py`,
`src/tools/template_loader.py`) and of the file-creation guard
(`src/tools/file_preventor.py`) of the MCP repository, together with theorems
settling the specification claims about them.

Modelling conventions:

* Python `float` scores are modelled as `Int`: every quantity entering a score
  (`weight`, `warning_penalty`, the architecture weights 20/25/20/15/20, the
  per-violation penalty 5) is an integer in the source, so all scores are
  integer-valued and the embedding is exact.
* Python `Optional[str]` fields are `Option String`.  Python truthiness of an
  optional string (`if pattern.regex:`) is `none` ↦ false, `some ""` ↦ false,
  otherwise true (`optStrTruthy`).  Truthiness of an optional list
  (`if required_file.must_contain:`) is false for `none` and for `some []`.
* `re.search(pattern, content)` results are passed in as an oracle
  `research : String → String → Bool`; no theorem below depends on the value
  of this oracle (they hold for every oracle, or the audited file is absent so
  the oracle is never consulted).  `re.match` against the three hard-coded
  test-file naming patterns and the three Makefile-name patterns *is*
  evaluated concretely, through a small matching engine (`rmatch`) over
  hand-compiled pattern syntax trees; each tree carries the source pattern
  string in its doc comment.
* The filesystem state a single-service inspection can observe is a `SvcFS`
  record: for each of the three audited files, absent / present-but-unreadable
  / present-with-content, plus the tests directory modelled by the list of
  file names its `glob("*.py")` returns (`none` when the directory is absent).
-/

/-! ## Data model (src/core/template_models.py, src/core/models.py) -/

/-- Python `QualityPattern` (src/core/template_models.py): a single quality rule with a
name, an optional regex, an optional literal substring, a signed weight, a
required flag and an optional warning text. -/
structure QualityPattern where
  name : String
  regex : Option String := none
  content : Option String := none
  description : String
  weight : Int
  required : Bool := false
  warning : Option String := none
deriving DecidableEq, Repr

/-- Python `RequiredFile` (src/core/template_models.py).  The Python field `type` is
`Optional[str]` defaulting to `"file"`; the source only ever compares it with
`== "directory"`, and `None` compares unequal, so a `String` field (with
`"file"` standing in for both `"file"` and `None`) is an exact model. -/
structure RequiredFile where
  name : String
  description : String
  required : Bool
  weight : Int
  type : String := "file"
  must_contain : Option (List String) := none
deriving DecidableEq, Repr

/-- Python `FileQuality` (src/core/template_models.py): a list of quality patterns. -/
structure FileQuality where
  patterns : List QualityPattern
deriving DecidableEq, Repr

/-- Python `ScoringConfig` (src/core/template_models.py).  `base_weights`,
`thresholds` and `bonus_features` are Python `Dict[str, int]`, modelled as
association lists; the source reads `thresholds["complete"]` and
`thresholds["incomplete"]` (a missing key would raise `KeyError`; both keys are
always present in the configurations the repository constructs, so the
association-list default of the lookup below is never exercised). -/
structure ScoringConfig where
  base_weights : List (String × Int) := []
  thresholds : List (String × Int) := []
  warning_penalty : Int := 2
  bonus_features : List (String × Int) := []
deriving DecidableEq, Repr

/-- Lookup in an association list modelling a Python dict subscript. -/
def dictGet (d : List (String × Int)) (key : String) : Int :=
  match d.find? (fun kv => kv.1 == key) with
  | some kv => kv.2
  | none => 0

/-- Python `FilePreventionRule` (src/core/models.py). -/
structure FilePreventionRule where
  file_type : String
  enabled : Bool := true
  blocked_patterns : List String
  allowed_exceptions : List String := []
  django_microservice_patterns : List String := []
  error_message : String
  alternatives : List String := []
deriving DecidableEq, Repr

/-- Python `PathPreventionRule` (src/core/models.py). -/
structure PathPreventionRule where
  rule_type : String
  enabled : Bool := true
  blocked_patterns : List String
  allowed_exceptions : List String := []
  error_message : String
  alternatives : List String := []
  severity : String := "high"
deriving DecidableEq, Repr

/-- Python `FileCreationPolicy` (src/core/models.py). -/
structure FileCreationPolicy where
  makefiles : FilePreventionRule
  shell_scripts : FilePreventionRule
  path_prevention : PathPreventionRule
  other_restricted : List FilePreventionRule := []
deriving DecidableEq, Repr

/-- Python `StructureTemplate` (src/core/template_models.py).  The Python
`file_prevention` field is typed `Optional[Any]` but only ever holds a
`FileCreationPolicy`. -/
structure StructureTemplate where
  name : String
  description : String
  required_files : List RequiredFile
  dockerfile_quality : Option FileQuality := none
  compose_quality : Option FileQuality := none
  gitignore_quality : Option FileQuality := none
  tests_quality : Option FileQuality := none
  file_prevention : Option FileCreationPolicy := none
deriving DecidableEq, Repr

/-- Python `TemplateConfig` (src/core/template_models.py). -/
structure TemplateConfig where
  default : StructureTemplate
  scoring : ScoringConfig
  file_prevention : Option FileCreationPolicy := none
deriving DecidableEq, Repr

/-- Python `StructureStatus` (src/core/models.py). -/
inductive StructureStatus where
  | COMPLETE
  | INCOMPLETE
  | POOR
deriving DecidableEq, Repr

/-- Python `StructureChecks` (src/core/models.py): the five fixed booleans. -/
structure StructureChecks where
  Dockerfile : Bool
  docker_compose_yml : Bool
  gitignore : Bool
  tests_dir_exists : Bool
  tests_dir_has_files : Bool
deriving DecidableEq, Repr

/-- Python `ConfigQuality` (src/core/models.py): the four warning lists. -/
structure ConfigQuality where
  dockerfile_best_practices : List String := []
  compose_warnings : List String := []
  gitignore_warnings : List String := []
  tests_warnings : List String := []
deriving DecidableEq, Repr

/-- Python `MicroserviceStructureReport` (src/core/models.py).  `path` holds the
string the report is constructed with (`str(full_path)` in the source; the
path-join arithmetic carries no logic and the inspected service name is used
for both fields here). -/
structure MicroserviceStructureReport where
  service : String
  path : String
  structure_checks : StructureChecks
  config_quality : ConfigQuality
  status : StructureStatus
  recommendations : List String := []
  score : Int := 0
deriving DecidableEq, Repr

/-- Python `ArchitecturePrinciple` (src/core/models.py). -/
inductive ArchitecturePrinciple where
  | DRY
  | TDD
  | INTEGRATION_TESTS
  | FAKER_DATA
  | SCALABILITY
deriving DecidableEq, Repr

/-- Python `PrincipleViolation` (src/core/models.py). -/
structure PrincipleViolation where
  principle : ArchitecturePrinciple
  severity : String
  description : String
  file_path : Option String := none
  line_number : Option Int := none
  code_snippet : Option String := none
  recommendation : String
deriving DecidableEq, Repr

/-! ## Python truthiness helpers -/

/-- Truthiness of a Python `Optional[str]`: `None` and `""` are falsy. -/
def optStrTruthy : Option String → Bool
  | none => false
  | some s => !(s == "")

/-- Truthiness of a Python `Optional[List[str]]`: `None` and `[]` are falsy. -/
def optListTruthy : Option (List String) → Bool
  | none => false
  | some l => !l.isEmpty

/-- Python's substring test `needle in haystack` on lists of characters. -/
def listContainsSub (needle : List Char) : List Char → Bool
  | [] => needle.isEmpty
  | c :: rest => needle.isPrefixOf (c :: rest) || listContainsSub needle rest

/-- Python's substring test `needle in haystack` on strings. -/
def strContains (haystack needle : String) : Bool :=
  listContainsSub needle.toList haystack.toList

/-! ## A small matching engine for the hard-coded `re.match` patterns

The inspector evaluates `re.match` only against six fixed pattern strings (the
three test-file naming patterns of `_get_test_patterns` and the three
Makefile-name patterns of `FilePreventor._is_makefile`).  These use only
literal characters, character classes, `.`, `.*`, the `^` anchor (redundant
under `re.match`, which is already anchored at the start) and the `$` anchor.
The engine below implements exactly these constructs; its boolean result
agrees with Python's backtracking matcher on them.  File names scanned by the
inspector never contain a newline, so `$` is modelled as end-of-input and `.`
as any character other than a newline. -/

/-- A single-character regex atom: a literal, `.`, or a character class. -/
inductive RAtom where
  | lit (c : Char)
  | dot
  | cls (cs : List Char)
deriving DecidableEq, Repr

/-- A regex token: one atom, a starred atom, or the `$` anchor. -/
inductive RTok where
  | one (a : RAtom)
  | star (a : RAtom)
  | dollar
deriving DecidableEq, Repr

/-- Does an atom match one character? (`.` matches anything but a newline,
as in Python without `re.DOTALL`.) -/
def atomMatch : RAtom → Char → Bool
  | .lit c, d => c == d
  | .dot, d => !(d == '\n')
  | .cls cs, d => cs.contains d

/-- Try every split for `a* k`: match zero or more `a`-characters, then the
continuation `k` on the rest. -/
def tryStar (a : RAtom) (k : List Char → Bool) : List Char → Bool
  | [] => k []
  | c :: cs => k (c :: cs) || (atomMatch a c && tryStar a k cs)

/-- Matching function: `rmatch toks cs` tells whether the token list matches a
prefix of `cs`, anchored at the start — the boolean outcome of Python's `re.match`? -/
def rmatch : List RTok → List Char → Bool
  | [], _ => true
  | .dollar :: rest, cs => cs.isEmpty && rmatch rest []
  | .one _ :: _, [] => false
  | .one a :: rest, c :: cs => atomMatch a c && rmatch rest cs
  | .star a :: rest, cs => tryStar a (fun cs' => rmatch rest cs') cs

/-- Compile a string of literal characters to tokens. -/
def lits (s : String) : List RTok :=
  s.toList.map (fun c => RTok.one (RAtom.lit c))

/-- Hand-compiled `"test_.*\.py$"` (from `_get_test_patterns`). -/
def rxTestUnderscore : List RTok :=
  lits "test_" ++ [RTok.star RAtom.dot] ++ lits ".py" ++ [RTok.dollar]

/-- Hand-compiled `".*_test\.py$"` (from `_get_test_patterns`). -/
def rxUnderscoreTest : List RTok :=
  [RTok.star RAtom.dot] ++ lits "_test.py" ++ [RTok.dollar]

/-- Hand-compiled `"tests/.*\.py$"` (from `_get_test_patterns`). -/
def rxTestsSlash : List RTok :=
  lits "tests/" ++ [RTok.star RAtom.dot] ++ lits ".py" ++ [RTok.dollar]

/-- The default test-file naming patterns of `_get_test_patterns`, compiled.
Source strings: `["test_.*\.py$", ".*_test\.py$", "tests/.*\.py$"]`. -/
def testPatternsRx : List (List RTok) :=
  [rxTestUnderscore, rxUnderscoreTest, rxTestsSlash]

/-- Python `any(re.match(pattern, filename) for pattern in self.test_patterns)` for
the default test patterns. -/
def matchesAnyTestPattern (filename : String) : Bool :=
  testPatternsRx.any (fun rx => rmatch rx filename.toList)

/-- Hand-compiled `"^[Mm]akefile$"` (from `FilePreventor._is_makefile`; the
leading `^` is redundant under `re.match`). -/
def rxMakefile : List RTok :=
  [RTok.one (RAtom.cls ['M', 'm'])] ++ lits "akefile" ++ [RTok.dollar]

/-- Hand-compiled `"^[Mm]akefile\..*$"` (from `FilePreventor._is_makefile`). -/
def rxMakefileDot : List RTok :=
  [RTok.one (RAtom.cls ['M', 'm'])] ++ lits "akefile." ++
    [RTok.star RAtom.dot] ++ [RTok.dollar]

/-- Hand-compiled `"^[Gg][Nn][Uu][Mm]akefile$"` (from
`FilePreventor._is_makefile`). -/
def rxGNUMakefile : List RTok :=
  [RTok.one (RAtom.cls ['G', 'g']), RTok.one (RAtom.cls ['N', 'n']),
   RTok.one (RAtom.cls ['U', 'u']), RTok.one (RAtom.cls ['M', 'm'])] ++
    lits "akefile" ++ [RTok.dollar]

/-! ## The hard-coded default configuration (TemplateLoader._create_default_config)

The repository contains no `src/config/structure_templates.yaml`, so every
inspector constructed by this code base runs with this default configuration
(the loader's fallback). -/

/-- The default Makefile prevention rule from `_create_default_config`. -/
def defaultMakefileRule : FilePreventionRule :=
  { file_type := "makefile"
    enabled := true
    blocked_patterns := ["Makefile", "makefile", "GNUmakefile", "*.mk"]
    allowed_exceptions := []
    django_microservice_patterns := []
    error_message := "❌ NO SE PERMITEN MAKEFILES en este proyecto"
    alternatives :=
      ["docker-compose.yml para orquestación de servicios",
       "scripts/ para tareas personalizadas",
       "pyproject.toml para comandos Python"] }

/-- The default shell-script prevention rule from `_create_default_config`. -/
def defaultShellScriptRule : FilePreventionRule :=
  { file_type := "shell_script"
    enabled := true
    blocked_patterns := ["*.sh"]
    allowed_exceptions := ["entrypoint.sh"]
    django_microservice_patterns :=
      ["manage.py", "app/settings.py", "app/wsgi.py", "app/asgi.py",
       "settings.py", "wsgi.py", "asgi.py"]
    error_message :=
      "❌ NO SE PERMITEN SCRIPTS .SH excepto entrypoint.sh para microservicios Django"
    alternatives :=
      ["Dockerfile para configuración de contenedor",
       "docker-compose.yml para orquestación",
       "requirements.txt para dependencias Python"] }

/-- The default relative-path prevention rule from `_create_default_config`. -/
def defaultPathRule : PathPreventionRule :=
  { rule_type := "relative_path"
    enabled := true
    blocked_patterns :=
      ["../", "./", "*/../*", "*/./*",
       "from ..", "from .", "import ..", "import ."]
    allowed_exceptions :=
      ["from . import",
       "from .. import"]
    error_message :=
      "❌ NO SE PERMITEN RUTAS RELATIVAS PROBLEMÁTICAS que salgan del contexto del proyecto"
    alternatives :=
      ["Usa rutas absolutas desde la raíz del proyecto",
       "Usa imports absolutos: from src.tools import",
       "Usa variables de entorno para rutas dinámicas",
       "Usa pathlib.Path para manejo robusto de rutas",
       "Define rutas base en configuración centralizada"]
    severity := "critical" }

/-- The default `FileCreationPolicy` from `_create_default_config`. -/
def defaultFilePreventionPolicy : FileCreationPolicy :=
  { makefiles := defaultMakefileRule
    shell_scripts := defaultShellScriptRule
    path_prevention := defaultPathRule
    other_restricted := [] }

/-- The `expose_port` quality pattern of the default template: a +5 bonus
pattern with no warning text. -/
def exposePortPattern : QualityPattern :=
  { name := "expose_port"
    regex := some "EXPOSE\\s+\\d+"
    description := "Puerto expuesto correctamente"
    weight := 5
    required := false }

/-- The `avoid_copy_all` quality pattern of the default template: weight −10,
with a warning text. -/
def avoidCopyAllPattern : QualityPattern :=
  { name := "avoid_copy_all"
    regex := some "COPY\\s+\\.\\s+\\."
    description := "Evita COPY . . sin .dockerignore"
    weight := -10
    required := false
    warning := some "uses COPY . . without .dockerignore" }

/-- The Dockerfile quality block of the default template. -/
def defaultDockerfileQuality : FileQuality :=
  { patterns := [exposePortPattern, avoidCopyAllPattern] }

/-- The default `StructureTemplate` from `_create_default_config`:
four required entries (Dockerfile 20, docker-compose.yml 20, .gitignore 15,
tests/ 15 as a directory that must contain `*.py`), and a Dockerfile quality
block with a +5 `expose_port` bonus pattern (no warning) and a −10
`avoid_copy_all` pattern carrying a warning. -/
def defaultTemplate : StructureTemplate :=
  { name := "Estándar Mínimo de Microservicios"
    description := "Verificación de estructura básica obligatoria para microservicios"
    required_files :=
      [{ name := "Dockerfile"
         description := "Archivo de containerización"
         required := true
         weight := 20 },
       { name := "docker-compose.yml"
         description := "Archivo de orquestación"
         required := true
         weight := 20 },
       { name := ".gitignore"
         description := "Archivo de exclusión de Git"
         required := true
         weight := 15 },
       { name := "tests/"
         description := "Directorio de tests"
         required := true
         weight := 15
         type := "directory"
         must_contain := some ["*.py"] }]
    dockerfile_quality := some defaultDockerfileQuality
    file_prevention := some defaultFilePreventionPolicy }

/-- The default `ScoringConfig` from `_create_default_config`. -/
def defaultScoring : ScoringConfig :=
  { base_weights :=
      [("required_file", 20), ("optional_file", 10),
       ("required_directory", 15), ("optional_directory", 8)]
    thresholds := [("complete", 80), ("incomplete", 50), ("poor", 0)]
    warning_penalty := 2
    bonus_features :=
      [("multi_stage_build", 10), ("health_check", 8), ("test_coverage", 5)] }

/-- Python `TemplateLoader._create_default_config`: the fallback configuration.
(The Python constructor call passes no `file_prevention` keyword to
`TemplateConfig`, so the top-level field stays `None`; the policy sits on the
template's own `file_prevention` field.) -/
def create_default_config : TemplateConfig :=
  { default := defaultTemplate
    scoring := defaultScoring }

/-- Python `TemplateLoader.load_templates`.  The body's fallible work — reading the
YAML file, `yaml.safe_load`, and the pydantic constructions of the rules,
template and scoring config — is the configuration-loading I/O the spec
treats as an external collaborator; it is modelled as the `Except`-valued
input `parsed`.  The `except` clause (and likewise the early missing-file
return) yields `_create_default_config()`. -/
def load_templates (parsed : Except String TemplateConfig) : TemplateConfig :=
  match parsed with
  | .ok config => config
  | .error _ => create_default_config

/-! ## Filesystem model for a single service directory -/

/-- The observable state of one service directory.  Each audited file is
`none` (absent), `some none` (present but `read_text` raises), or
`some (some content)`.  `testsDir` is `none` when `tests/` is absent and
otherwise holds the file names returned by `tests_dir.glob("*.py")` (which is
also what the `must_contain = ["*.py"]` presence check globs). -/
structure SvcFS where
  dirExists : Bool
  dockerfile : Option (Option String) := none
  compose : Option (Option String) := none
  gitignore : Option (Option String) := none
  testsDir : Option (List String) := none
deriving DecidableEq, Repr

/-! ## BaseStructureInspector: structure checks and audits

The inspectors in this repository all run with `defaultTemplate` (the loader's
fallback, see above).  `_check_basic_structure` and `_audit_tests` are
transcribed specialised to that template: the loop of
`_check_basic_structure` runs over the default template's four entries, and
the template branch of `_audit_tests` is dead because
`defaultTemplate.tests_quality` is `None`.  The dockerfile / compose /
gitignore audits are transcribed generically in the template. -/

/-- Python's `s.replace(old, new)` for a single-character pattern and
replacement — the only shape the key mangling of `_check_basic_structure`
uses (`replace("/", "_")` and `replace(".", "_")`). -/
def replaceChar (old new : Char) : List Char → List Char
  | [] => []
  | c :: rest => (if c == old then new else c) :: replaceChar old new rest

/-- Python's `s.replace(old, new)` on strings, single-character case. -/
def pyCharReplace (s : String) (old new : Char) : String :=
  ⟨replaceChar old new s.toList⟩

/-- Python's `dict.get(key, False)` on a string-keyed boolean dict (the
mangled keys of the default template are pairwise distinct, so a first-match
association-list lookup agrees with the Python dict). -/
def dictGetBool (d : List (String × Bool)) (key : String) : Bool :=
  match d.find? (fun kv => kv.1 == key) with
  | some kv => kv.2
  | none => false

/-- Python `BaseStructureInspector._check_basic_structure`, for the default
template.  The loop stores the presence of each entry in a dict keyed by
`name.replace("/", "_").replace(".", "_")` for directories and
`name.replace(".", "_")` for files (plus the two dedicated tests keys for the
`tests/` entry, whose `must_contain = ["*.py"]` makes `tests_dir_has_files`
"the `*.py` glob is non-empty"); the projection then reads the five fixed
keys with `.get(key, False)`.  The mangling keeps the hyphen of
`docker-compose.yml` (stored key `docker-compose_yml`) and produces a leading
underscore for `.gitignore` (stored key `_gitignore`), while the projection
reads `docker_compose_yml` and `gitignore` — keys that are never stored — so
those two booleans are False whatever the directory contains.  This source
bug is transcribed, not repaired. -/
def check_basic_structure (fs : SvcFS) : StructureChecks :=
  let checks : List (String × Bool) :=
    [(pyCharReplace "Dockerfile" '.' '_', fs.dockerfile.isSome),
     (pyCharReplace "docker-compose.yml" '.' '_', fs.compose.isSome),
     (pyCharReplace ".gitignore" '.' '_', fs.gitignore.isSome),
     (pyCharReplace (pyCharReplace "tests/" '/' '_') '.' '_', fs.testsDir.isSome),
     ("tests_dir_exists", fs.testsDir.isSome),
     ("tests_dir_has_files",
       match fs.testsDir with
       | none => false
       | some files => !files.isEmpty)]
  { Dockerfile := dictGetBool checks "Dockerfile"
    docker_compose_yml := dictGetBool checks "docker_compose_yml"
    gitignore := dictGetBool checks "gitignore"
    tests_dir_exists := dictGetBool checks "tests_dir_exists"
    tests_dir_has_files := dictGetBool checks "tests_dir_has_files" }

/-- The dict-key mismatch of `_check_basic_structure` in one line: the
`docker_compose_yml` and `gitignore` booleans of every report are False, no
matter which files exist. -/
theorem check_compose_gitignore_always_false (fs : SvcFS) :
    (check_basic_structure fs).docker_compose_yml = false ∧
    (check_basic_structure fs).gitignore = false := by
  exact ⟨rfl, rfl⟩

/-- Python `BaseStructureInspector._audit_dockerfile`.  When the template has a
Dockerfile quality block, each pattern with a truthy regex appends its warning
when the regex is *not* found, and — via the `elif` — also when it *is* found;
otherwise the three hard-coded default patterns apply.  A read failure yields
the single "unable to read" warning. -/
def audit_dockerfile (research : String → String → Bool) (t : StructureTemplate)
    (file : Option (Option String)) : List String :=
  match file with
  | none => []
  | some none => ["unable to read Dockerfile content"]
  | some (some content) =>
    match t.dockerfile_quality with
    | some fq =>
      fq.patterns.foldl (fun ws p =>
        if optStrTruthy p.regex then
          if optStrTruthy p.warning && !research (p.regex.getD "") content then
            ws ++ [p.warning.getD ""]
          else if optStrTruthy p.warning && research (p.regex.getD "") content then
            ws ++ [p.warning.getD ""]
          else ws
        else ws) []
    | none =>
      (if !research "EXPOSE\\s+\\d+" content then ["EXPOSE missing"] else []) ++
      (if research "COPY\\s+\\.\\s+\\." content then
        ["uses COPY . . without .dockerignore"] else []) ++
      (if research "(apt-get|yum|apk)\\s+install.*(vim|nano|curl|wget)" content then
        ["installs unnecessary tools"] else [])

/-- Python `BaseStructureInspector._audit_docker_compose`.  Template patterns with a
truthy regex *and* warning warn when the regex is not found; otherwise the
four hard-coded default patterns apply. -/
def audit_docker_compose (research : String → String → Bool) (t : StructureTemplate)
    (file : Option (Option String)) : List String :=
  match file with
  | none => []
  | some none => ["unable to read docker-compose.yml content"]
  | some (some content) =>
    match t.compose_quality with
    | some fq =>
      fq.patterns.foldl (fun ws p =>
        if optStrTruthy p.regex && optStrTruthy p.warning then
          if !research (p.regex.getD "") content then ws ++ [p.warning.getD ""]
          else ws
        else ws) []
    | none =>
      (if !research "restart:\\s*(unless-stopped|always|on-failure)" content then
        ["no restart policy"] else []) ++
      (if !research "volumes:" content then ["no volumes defined"] else []) ++
      (if !research "networks:" content then ["no networks defined"] else []) ++
      (if !research "depends_on:" content then ["no depends_on defined"] else [])

/-- The default `.gitignore` patterns of `_get_gitignore_patterns`. -/
def defaultGitignorePatterns : List String :=
  [".env", "__pycache__/", "*.pyc", "node_modules/",
   "build/", "dist/", ".pytest_cache/", "*.log"]

/-- Python `BaseStructureInspector._audit_gitignore`.  A missing file yields
"missing .gitignore file"; template patterns with truthy `content` and
`warning` warn when the literal substring is absent; otherwise each default
pattern that is absent yields `missing <pattern>`. -/
def audit_gitignore (t : StructureTemplate)
    (file : Option (Option String)) : List String :=
  match file with
  | none => ["missing .gitignore file"]
  | some none => ["unable to read .gitignore content"]
  | some (some content) =>
    match t.gitignore_quality with
    | some fq =>
      fq.patterns.foldl (fun ws p =>
        if optStrTruthy p.content && optStrTruthy p.warning then
          if !strContains content (p.content.getD "") then ws ++ [p.warning.getD ""]
          else ws
        else ws) []
    | none =>
      defaultGitignorePatterns.foldl (fun ws pat =>
        if !strContains content pat then ws ++ ["missing " ++ pat] else ws) []

/-- Python `BaseStructureInspector._audit_tests`, for the default template (whose
`tests_quality` is `None`, so the default naming-convention branch runs):
a missing directory or an empty `*.py` glob yield one fixed warning, and every
test file whose name matches none of the three default naming patterns yields
one warning. -/
def audit_tests (testsDir : Option (List String)) : List String :=
  match testsDir with
  | none => ["tests directory missing"]
  | some files =>
    if files.isEmpty then ["no test files found"]
    else
      files.foldl (fun ws filename =>
        if !matchesAnyTestPattern filename then
          ws ++ ["test file " ++ filename ++ " doesn\x27t follow naming convention"]
        else ws) []

/-- Python `BaseStructureInspector._audit_config_quality`: the four audits bundled. -/
def audit_config_quality (research : String → String → Bool)
    (fs : SvcFS) : ConfigQuality :=
  { dockerfile_best_practices := audit_dockerfile research defaultTemplate fs.dockerfile
    compose_warnings := audit_docker_compose research defaultTemplate fs.compose
    gitignore_warnings := audit_gitignore defaultTemplate fs.gitignore
    tests_warnings := audit_tests fs.testsDir }

/-! ## Scoring -/

/-- The total warning count over the four audit lists. -/
def totalWarnings (cq : ConfigQuality) : Nat :=
  cq.dockerfile_best_practices.length + cq.compose_warnings.length +
    cq.gitignore_warnings.length + cq.tests_warnings.length

/-- Python `BaseStructureInspector._calculate_score`, transcribed as in the source:
an accumulator loop over `required_files` (directory entries named `tests/`
use `tests_dir_exists`; other directory entries test existence under the
inspector's *base* path, here the oracle `baseDirExists`; file entries named
`Dockerfile` / `docker-compose.yml` / `.gitignore` use their booleans, any
other file entry adds nothing), then the positive pattern weights of the
dockerfile and compose quality blocks, then minus warnings × penalty, clamped
below at 0. -/
def calculate_score (t : StructureTemplate) (sc : ScoringConfig)
    (baseDirExists : String → Bool) (checks : StructureChecks)
    (cq : ConfigQuality) : Int :=
  let base_score : Int := t.required_files.foldl (fun acc rf =>
    if rf.type == "directory" then
      if rf.name == "tests/" then
        if checks.tests_dir_exists then acc + rf.weight else acc
      else
        if baseDirExists rf.name then acc + rf.weight else acc
    else
      if rf.name == "Dockerfile" && checks.Dockerfile then acc + rf.weight
      else if rf.name == "docker-compose.yml" && checks.docker_compose_yml then
        acc + rf.weight
      else if rf.name == ".gitignore" && checks.gitignore then acc + rf.weight
      else acc) 0
  let config_score : Int :=
    (match t.dockerfile_quality with
     | some fq => fq.patterns.foldl (fun acc p =>
         if p.weight > 0 then acc + p.weight else acc) 0
     | none => 0) +
    (match t.compose_quality with
     | some fq => fq.patterns.foldl (fun acc p =>
         if p.weight > 0 then acc + p.weight else acc) 0
     | none => 0)
  let config_score := config_score - (totalWarnings cq : Int) * sc.warning_penalty
  max 0 (base_score + config_score)

/-- Python `BaseStructureInspector._determine_status`. -/
def determine_status (sc : ScoringConfig) (score : Int) : StructureStatus :=
  if score ≥ dictGet sc.thresholds "complete" then .COMPLETE
  else if score ≥ dictGet sc.thresholds "incomplete" then .INCOMPLETE
  else .POOR

/-- Python `BaseStructureInspector._generate_recommendations`. -/
def generate_recommendations (t : StructureTemplate) (checks : StructureChecks)
    (cq : ConfigQuality) : List String :=
  let recs := t.required_files.foldl (fun acc rf =>
    if rf.required then
      if rf.name == "Dockerfile" && !checks.Dockerfile then
        acc ++ ["Crear " ++ rf.name ++ " para " ++ rf.description]
      else if rf.name == "docker-compose.yml" && !checks.docker_compose_yml then
        acc ++ ["Crear " ++ rf.name ++ " para " ++ rf.description]
      else if rf.name == ".gitignore" && !checks.gitignore then
        acc ++ ["Crear " ++ rf.name ++ " para " ++ rf.description]
      else if rf.name == "tests/" && !checks.tests_dir_exists then
        acc ++ ["Crear directorio " ++ rf.name ++ " para " ++ rf.description]
      else acc
    else acc) []
  let recs := if !cq.dockerfile_best_practices.isEmpty then
      recs ++ ["Mejorar Dockerfile siguiendo mejores prácticas"] else recs
  let recs := if !cq.compose_warnings.isEmpty then
      recs ++ ["Mejorar docker-compose.yml con políticas de reinicio y volúmenes"]
    else recs
  let recs := if !cq.gitignore_warnings.isEmpty then
      recs ++ ["Mejorar .gitignore con patrones estándar"] else recs
  let recs := if !cq.tests_warnings.isEmpty then
      recs ++ ["Mejorar estructura y convenciones de tests"] else recs
  recs

/-- Python `BaseStructureInspector.inspect_microservice`: the one hard failure is a
service directory that does not exist (`raise ValueError`, modelled as
`Except.error`); otherwise checks, audits, score, status and recommendations
are assembled into a report.  The default template has no directory entry
other than `tests/`, so the base-path existence oracle of `calculate_score`
is never consulted and is fixed to `fun _ => false` here. -/
def inspect_microservice (research : String → String → Bool)
    (service : String) (fs : SvcFS) :
    Except String MicroserviceStructureReport :=
  if fs.dirExists then
    let structure_checks := check_basic_structure fs
    let config_quality := audit_config_quality research fs
    let score := calculate_score defaultTemplate defaultScoring (fun _ => false)
      structure_checks config_quality
    let status := determine_status defaultScoring score
    .ok
      { service := service
        path := service
        structure_checks := structure_checks
        config_quality := config_quality
        status := status
        score := score
        recommendations :=
          generate_recommendations defaultTemplate structure_checks config_quality }
  else
    .error ("El directorio " ++ service ++ " no existe")

/-! ## AdvancedArchitectureInspector: scoring and status

The five compliance analyses (`_analyze_dry_compliance`, …) are regex
heuristics over a filesystem walk; the claims below are about how their five
boolean outcomes and the violation list combine, so the booleans enter as
parameters and `_detect_architecture_violations`, `_calculate_architecture_score`
and `_determine_architecture_status` are transcribed. -/

/-- Python `AdvancedArchitectureInspector._detect_architecture_violations`: one fixed
violation per non-compliant principle, in the source's append order, with the
hard-coded severities DRY→HIGH, TDD→CRITICAL, integration→HIGH,
faker→MEDIUM, scalability→MEDIUM. -/
def detect_architecture_violations (drp tdd integration faker scalability : Bool) :
    List PrincipleViolation :=
  (if !drp then
    [{ principle := .DRY
       severity := "HIGH"
       description := "Detectadas duplicaciones en código que violan el principio DRY"
       recommendation := "Refactorizar código duplicado en funciones/clases reutilizables" }]
   else []) ++
  (if !tdd then
    [{ principle := .TDD
       severity := "CRITICAL"
       description := "No se implementa Test Driven Development"
       recommendation := "Implementar TDD con estructura de tests adecuada y configuración de pytest" }]
   else []) ++
  (if !integration then
    [{ principle := .INTEGRATION_TESTS
       severity := "HIGH"
       description := "Faltan pruebas de integración"
       recommendation := "Agregar pruebas de integración con marcadores apropiados y configuración de test" }]
   else []) ++
  (if !faker then
    [{ principle := .FAKER_DATA
       severity := "MEDIUM"
       description := "No se utiliza Faker para generar datos de prueba realistas"
       recommendation := "Integrar Faker para generar datos de prueba variados y realistas" }]
   else []) ++
  (if !scalability then
    [{ principle := .SCALABILITY
       severity := "MEDIUM"
       description := "Faltan características de escalabilidad"
       recommendation := "Implementar patrones de escalabilidad como async/await, caching, connection pooling" }]
   else [])

/-- Python `AdvancedArchitectureInspector._calculate_architecture_score`: accumulate
20/25/20/15/20 for the compliant principles, subtract 5 per violation, clamp
below at 0. -/
def calculate_architecture_score (drp tdd integration faker scalability : Bool)
    (violations : Nat) : Int :=
  let base_score : Int := 0
  let base_score := if drp then base_score + 20 else base_score
  let base_score := if tdd then base_score + 25 else base_score
  let base_score := if integration then base_score + 20 else base_score
  let base_score := if faker then base_score + 15 else base_score
  let base_score := if scalability then base_score + 20 else base_score
  let violation_penalty : Int := (violations : Int) * 5
  max 0 (base_score - violation_penalty)

/-- Python `AdvancedArchitectureInspector._determine_architecture_status`. -/
def determine_architecture_status (score : Int) : String :=
  if score ≥ 80 then "EXCELLENT"
  else if score ≥ 60 then "GOOD"
  else if score ≥ 40 then "FAIR"
  else if score ≥ 20 then "POOR"
  else "CRITICAL"

/-- The score `analyze_microservice_architecture` assigns to a directory whose
five compliance analyses returned the given booleans: the violation count fed
into the score is the length of the detected-violation list. -/
def architecture_score_of_flags (drp tdd integration faker scalability : Bool) : Int :=
  calculate_architecture_score drp tdd integration faker scalability
    (detect_architecture_violations drp tdd integration faker scalability).length

/-! ## FilePreventor (src/tools/file_preventor.py)

A candidate file is modelled by its parent directory (`fileParent`, a list of
path components — `Path.parent` of the candidate), its name, and the outcome
of reading it (`fileContent`, as in `SvcFS`).  The service directory is a
component list as well, and `indicatorExists name` is
`(service_path / name).exists()`. -/

/-- Python `FilePreventor._is_makefile`: `re.match` of the file name against the
three hard-coded Makefile patterns. -/
def is_makefile (filename : String) : Bool :=
  [rxMakefile, rxMakefileDot, rxGNUMakefile].any
    (fun rx => rmatch rx filename.toList)

/-- Python's `s.endswith(suffix)` on strings, computed over the character
lists. -/
def strEndsWith (s suffix : String) : Bool :=
  suffix.toList.isSuffixOf s.toList

/-- Python `FilePreventor._is_shell_script`: the name ends in `.sh`. -/
def is_shell_script (filename : String) : Bool :=
  strEndsWith filename ".sh"

/-- Python `pattern.replace("*", ".*")` compiled for the matching engine: the
pieces between `*`s become literal tokens, each `*` becomes `.*`.  (Any other
regex metacharacter inside a piece would be interpreted by Python but is
treated literally here; no rule shipped or constructed by this repository has
such a pattern.) -/
def globToRx (pattern : String) : List RTok :=
  List.intercalate [RTok.star RAtom.dot] ((pattern.splitOn "*").map lits)

/-- Python `FilePreventor._matches_pattern`: the simple glob logic for
`other_restricted` rules — a leading-`*` pattern is a suffix test, a pattern
with an inner `*` is matched via `re.match(pattern.replace("*", ".*"), name)`
(anchored at the start only), anything else is exact equality. -/
def matches_pattern (filename : String) (patterns : List String) : Bool :=
  patterns.any (fun pattern =>
    if pattern.startsWith "*" then
      filename.endsWith (pattern.drop 1)
    else if strContains pattern "*" then
      rmatch (globToRx pattern) filename.toList
    else
      filename == pattern)

/-- The default Django indicators used when the rule's
`django_microservice_patterns` list is falsy (Python `or`:
an *empty* configured list also falls back to the defaults). -/
def djangoIndicators (rule : FilePreventionRule) : List String :=
  if rule.django_microservice_patterns.isEmpty then
    ["manage.py", "app/settings.py", "app/wsgi.py", "app/asgi.py",
     "settings.py", "wsgi.py", "asgi.py"]
  else rule.django_microservice_patterns

/-- Python `FilePreventor._is_legitimate_django_entrypoint`: the file must sit
directly in the service root, be literally named `entrypoint.sh`, be listed in
the rule's allowed exceptions, and the service directory must contain at
least one Django indicator. -/
def is_legitimate_django_entrypoint (fileParent : List String) (filename : String)
    (servicePath : List String) (rule : FilePreventionRule)
    (indicatorExists : String → Bool) : Bool :=
  if !(fileParent == servicePath) then false
  else if !(filename == "entrypoint.sh") then false
  else if !(rule.allowed_exceptions.contains "entrypoint.sh") then false
  else (djangoIndicators rule).any indicatorExists

/-- Python `FilePreventor._is_allowed_relative_path`: some allowed exception occurs
in the content.  (The detected `pattern` is received but ignored, exactly as
in the source.) -/
def is_allowed_relative_path (content : String) (pattern : String)
    (rule : PathPreventionRule) : Bool :=
  rule.allowed_exceptions.any (fun exc => strContains content exc)

/-- Python `FilePreventor._has_problematic_relative_paths`: a file that does not
exist, or whose content cannot be read, is never problematic; otherwise some
blocked pattern must occur in the content without being excused by
`_is_allowed_relative_path`.  (The source's early-`return True` loop is the
boolean `any`.) -/
def has_problematic_relative_paths (rule : PathPreventionRule)
    (fileContent : Option (Option String)) : Bool :=
  match fileContent with
  | none => false
  | some none => false
  | some (some content) =>
    if !rule.enabled then false
    else rule.blocked_patterns.any (fun pattern =>
      strContains content pattern &&
        !is_allowed_relative_path content pattern rule)

/-- Python `FilePreventor.can_create_file`: the rule dispatch in source order —
Makefile names, then shell scripts (with the Django entrypoint exception),
then problematic relative paths in the existing content, then the custom
`other_restricted` rules; the result triple is
`(allowed, error_message, alternatives)`. -/
def can_create_file (policy : FileCreationPolicy) (fileParent : List String)
    (filename : String) (servicePath : List String)
    (fileContent : Option (Option String)) (indicatorExists : String → Bool) :
    Bool × String × List String :=
  if is_makefile filename then
    if !policy.makefiles.enabled then (true, "", [])
    else (false, policy.makefiles.error_message, policy.makefiles.alternatives)
  else if is_shell_script filename then
    if !policy.shell_scripts.enabled then (true, "", [])
    else if is_legitimate_django_entrypoint fileParent filename servicePath
        policy.shell_scripts indicatorExists then (true, "", [])
    else (false, policy.shell_scripts.error_message, policy.shell_scripts.alternatives)
  else if has_problematic_relative_paths policy.path_prevention fileContent then
    if !policy.path_prevention.enabled then (true, "", [])
    else (false, policy.path_prevention.error_message, policy.path_prevention.alternatives)
  else
    match policy.other_restricted.find? (fun rule =>
        rule.enabled && matches_pattern filename rule.blocked_patterns) with
    | some rule => (false, rule.error_message, rule.alternatives)
    | none => (true, "", [])

/-! ## Specification-side score definitions (for claim C1)

These restate the score the way the specification describes it — a sum over
the template entries whose presence check passed, plus the positive quality
weights, minus warnings × penalty — to be compared with the accumulator-loop
transcription `calculate_score`. -/

/-- The presence check `_calculate_score` consults for one template entry:
directory entries named `tests/` use `tests_dir_exists`, other directory
entries test existence under the inspector's base path, and the three known
file names use their `StructureChecks` booleans.  A file entry with any other
name has no check (the score loop never credits it). -/
def presence_check (baseDirExists : String → Bool) (checks : StructureChecks)
    (rf : RequiredFile) : Bool :=
  if rf.type == "directory" then
    if rf.name == "tests/" then checks.tests_dir_exists
    else baseDirExists rf.name
  else if rf.name == "Dockerfile" then checks.Dockerfile
  else if rf.name == "docker-compose.yml" then checks.docker_compose_yml
  else if rf.name == ".gitignore" then checks.gitignore
  else false

/-- Specification-side base score: the sum of the weights of the template
entries whose presence check passed. -/
def claim_base_score (t : StructureTemplate) (baseDirExists : String → Bool)
    (checks : StructureChecks) : Int :=
  (t.required_files.map (fun rf =>
    if presence_check baseDirExists checks rf then rf.weight else 0)).sum

/-- Specification-side quality bonus: the sum of every positive-weight
pattern of a quality block, independent of any file content. -/
def positive_pattern_weights : Option FileQuality → Int
  | none => 0
  | some fq => (fq.patterns.map (fun p => if p.weight > 0 then p.weight else 0)).sum

/-! ## Shared fold lemmas -/

/-- An accumulator loop whose step adds a per-element amount computes the
initial value plus the sum of the amounts. -/
theorem foldl_step_add_sum {α : Type} (step : Int → α → Int) (f : α → Int)
    (hstep : ∀ (a : Int) (x : α), step a x = a + f x) :
    ∀ (l : List α) (a : Int), l.foldl step a = a + (l.map f).sum := by
  intro l
  induction l with
  | nil => intro a; simp
  | cons x xs ih =>
    intro a
    rw [List.foldl_cons, hstep, ih, List.map_cons, List.sum_cons, add_assoc]

/-- The base-score loop step of `_calculate_score` adds the weight exactly of
the entries whose presence check passed. -/
theorem base_score_step_eq (baseDirExists : String → Bool)
    (checks : StructureChecks) (a : Int) (rf : RequiredFile) :
    (if rf.type == "directory" then
      if rf.name == "tests/" then
        if checks.tests_dir_exists then a + rf.weight else a
      else
        if baseDirExists rf.name then a + rf.weight else a
    else
      if rf.name == "Dockerfile" && checks.Dockerfile then a + rf.weight
      else if rf.name == "docker-compose.yml" && checks.docker_compose_yml then
        a + rf.weight
      else if rf.name == ".gitignore" && checks.gitignore then a + rf.weight
      else a)
    = a + (if presence_check baseDirExists checks rf then rf.weight else 0) := by
  simp only [presence_check, Bool.and_eq_true]
  split_ifs <;> simp_all

/-- The positive-weight loop step of `_calculate_score`. -/
theorem positive_weight_step_eq (a : Int) (p : QualityPattern) :
    (if p.weight > 0 then a + p.weight else a)
    = a + (if p.weight > 0 then p.weight else 0) := by
  split_ifs <;> simp

/-- A quality block's positive-weight loop computes
`positive_pattern_weights`. -/
theorem positive_fold_eq (o : Option FileQuality) :
    (match o with
     | some fq => fq.patterns.foldl (fun acc p =>
         if p.weight > 0 then acc + p.weight else acc) 0
     | none => (0 : Int))
    = positive_pattern_weights o := by
  cases o with
  | none => rfl
  | some fq =>
    simp only [positive_pattern_weights]
    rw [foldl_step_add_sum _ _ positive_weight_step_eq, zero_add]

/-- The accumulator loops of `_calculate_score` compute the closed formula:
`max 0` of the passed-entry weight sum, plus the unconditional positive
pattern weights of the two quality blocks, minus warnings × penalty. -/
theorem calc_score_decomposition (t : StructureTemplate)
    (sc : ScoringConfig) (baseDirExists : String → Bool)
    (checks : StructureChecks) (cq : ConfigQuality) :
    calculate_score t sc baseDirExists checks cq =
      max 0 (claim_base_score t baseDirExists checks
        + positive_pattern_weights t.dockerfile_quality
        + positive_pattern_weights t.compose_quality
        - (totalWarnings cq : Int) * sc.warning_penalty) := by
  unfold calculate_score
  rw [foldl_step_add_sum _
    (fun rf => if presence_check baseDirExists checks rf then rf.weight else 0)
    (base_score_step_eq baseDirExists checks),
    positive_fold_eq t.dockerfile_quality, positive_fold_eq t.compose_quality,
    zero_add]
  unfold claim_base_score
  ring_nf

/-- C1: for every template, scoring configuration and inspected directory
state, the structure score computed by `_calculate_score` equals
`max(0, base + quality_adjustment)` with no upper clamp, where `base` is the
sum of the weights of the template entries whose presence check passed, and
the quality adjustment adds every positive-weight quality pattern of the
dockerfile and compose blocks unconditionally (whenever the block exists, not
gated on whether the pattern matches any file content) and subtracts the
total warning count across the four audits times `warning_penalty`. -/
theorem calculate_score_matches_claimed_formula (t : StructureTemplate)
    (sc : ScoringConfig) (baseDirExists : String → Bool)
    (checks : StructureChecks) (cq : ConfigQuality) :
    calculate_score t sc baseDirExists checks cq =
      max 0 (claim_base_score t baseDirExists checks
        + positive_pattern_weights t.dockerfile_quality
        + positive_pattern_weights t.compose_quality
        - (totalWarnings cq : Int) * sc.warning_penalty) :=
  calc_score_decomposition t sc baseDirExists checks cq

/-! ## Claim C2: inspecting an empty directory -/

/-- A `re.search` oracle for inspections that never read file content (every
file of the scenario is absent, so the audits return before any regex runs
and the oracle's value is irrelevant). -/
def research0 : String → String → Bool := fun _ _ => false

/-- An existing service directory containing nothing at all. -/
def emptyFS : SvcFS := { dirExists := true }

/-- The report the inspector actually produces for an empty directory: all
five booleans false; dockerfile and compose audits return nothing (the files
do not exist), but the gitignore audit reports the missing file and the tests
audit the missing directory, so two warnings are charged; the score is
`max(0, 0 + 5 − 2·2) = 1` (the +5 is the unconditional `expose_port` bonus of
the default template); 1 is below the incomplete threshold 50, hence POOR. -/
def emptyDirReport : MicroserviceStructureReport :=
  { service := "empty_service"
    path := "empty_service"
    structure_checks :=
      { Dockerfile := false
        docker_compose_yml := false
        gitignore := false
        tests_dir_exists := false
        tests_dir_has_files := false }
    config_quality :=
      { dockerfile_best_practices := []
        compose_warnings := []
        gitignore_warnings := ["missing .gitignore file"]
        tests_warnings := ["tests directory missing"] }
    status := .POOR
    score := 1
    recommendations :=
      ["Crear Dockerfile para Archivo de containerización",
       "Crear docker-compose.yml para Archivo de orquestación",
       "Crear .gitignore para Archivo de exclusión de Git",
       "Crear directorio tests/ para Directorio de tests",
       "Mejorar .gitignore con patrones estándar",
       "Mejorar estructura y convenciones de tests"]}

/-- C2 (counterexample): on an empty directory the inspector emits a
*non-empty* gitignore warning list (`["missing .gitignore file"]`) and score
1, so the claimed "every list empty except tests" and "score 0.0" are both
false of the code. -/
theorem inspect_empty_directory_counterexample :
    inspect_microservice research0 "empty_service" emptyFS = .ok emptyDirReport ∧
    ¬(emptyDirReport.config_quality.gitignore_warnings = [] ∧
      emptyDirReport.score = 0) := by
  exact ⟨rfl, by decide⟩

/-- C2 (amended): inspecting an empty directory yields all five booleans
false, empty dockerfile and compose warning lists, gitignore warnings
`["missing .gitignore file"]`, tests warnings `["tests directory missing"]`,
score 1.0 and status POOR — for every `re.search` oracle, since no file
content is ever read. -/
theorem inspect_empty_directory_amended
    (research : String → String → Bool) :
    inspect_microservice research "empty_service" emptyFS = .ok emptyDirReport := by
  rfl

/-! ## Claim C3: one extra warning vs. the score -/

/-- A service directory whose `tests/` holds nine junk-named test files and
nothing else.  Each junk name matches no naming pattern, so the tests audit
emits nine warnings and the missing `.gitignore` a tenth; the base score is 15
(only `tests/` exists) and `max(0, 15 + 5 − 2·10) = 0`. -/
def fsJunk9 : SvcFS :=
  { dirExists := true
    testsDir := some ["f0.py", "f1.py", "f2.py", "f3.py", "f4.py",
                      "f5.py", "f6.py", "f7.py", "f8.py"] }

/-- The same directory with a tenth junk test file: identical presence facts,
eleven warnings, and `max(0, 15 + 5 − 2·11) = 0` again. -/
def fsJunk10 : SvcFS :=
  { dirExists := true
    testsDir := some ["f0.py", "f1.py", "f2.py", "f3.py", "f4.py",
                      "f5.py", "f6.py", "f7.py", "f8.py", "f9.py"] }

/-- C3 (counterexample): between `fsJunk9` and `fsJunk10` the file-presence
booleans are identical and the warning count rises by exactly one, yet the
score drops by 0, not by `warning_penalty = 2` — the `max(0, ·)` clamp
absorbs the penalty, refuting "strictly decreases by exactly
`warning_penalty`". -/
theorem warning_penalty_monotonicity_counterexample :
    check_basic_structure fsJunk9 = check_basic_structure fsJunk10 ∧
    totalWarnings (audit_config_quality research0 fsJunk10) =
      totalWarnings (audit_config_quality research0 fsJunk9) + 1 ∧
    ¬(calculate_score defaultTemplate defaultScoring (fun _ => false)
        (check_basic_structure fsJunk9) (audit_config_quality research0 fsJunk9)
      - calculate_score defaultTemplate defaultScoring (fun _ => false)
        (check_basic_structure fsJunk10) (audit_config_quality research0 fsJunk10)
      = defaultScoring.warning_penalty) := by
  refine ⟨by decide, by decide, by decide⟩

/-- A copy of a directory state with every readable file content replaced by
the empty string: the same files exist, only contents differ. -/
def erase_contents (fs : SvcFS) : SvcFS :=
  { dirExists := fs.dirExists
    dockerfile := fs.dockerfile.map (fun _ => some "")
    compose := fs.compose.map (fun _ => some "")
    gitignore := fs.gitignore.map (fun _ => some "")
    testsDir := fs.testsDir }

/-- C3 (amended): adding exactly one quality warning to an otherwise-fixed
directory state decreases the score by exactly `warning_penalty` *provided
the unclamped score after the extra warning is still ≥ 0*; at the `max(0, ·)`
clamp the drop is smaller (see the counterexample).  The file-presence
booleans never depend on the warnings: `_check_basic_structure` reads only
existence facts, so replacing every file's content leaves it unchanged. -/
theorem warning_penalty_monotonicity_amended
    (baseDirExists : String → Bool) (checks : StructureChecks)
    (cq cq' : ConfigQuality)
    (hone : totalWarnings cq' = totalWarnings cq + 1)
    (hkeep : 0 ≤ claim_base_score defaultTemplate baseDirExists checks
        + positive_pattern_weights defaultTemplate.dockerfile_quality
        + positive_pattern_weights defaultTemplate.compose_quality
        - (totalWarnings cq' : Int) * defaultScoring.warning_penalty) :
    (calculate_score defaultTemplate defaultScoring baseDirExists checks cq
      - calculate_score defaultTemplate defaultScoring baseDirExists checks cq'
      = defaultScoring.warning_penalty) ∧
    (∀ fs : SvcFS, check_basic_structure (erase_contents fs) =
      check_basic_structure fs) := by
  constructor
  · have hp : defaultScoring.warning_penalty = 2 := rfl
    rw [hp, hone] at hkeep
    push_cast at hkeep
    rw [calc_score_decomposition, calc_score_decomposition, hp, hone]
    push_cast
    have h0 : (0 : Int) ≤ claim_base_score defaultTemplate baseDirExists checks
        + positive_pattern_weights defaultTemplate.dockerfile_quality
        + positive_pattern_weights defaultTemplate.compose_quality
        - (totalWarnings cq : Int) * 2 := by omega
    rw [max_eq_right hkeep, max_eq_right h0]
    ring
  · intro fs
    rcases fs with ⟨de, d, c, g, t⟩
    cases d <;> cases c <;> cases g <;> cases t <;> rfl

/-- Witness for the amended C3 at a concrete input: all files present, no
warnings versus one dockerfile warning; the unclamped score stays positive
and the drop is exactly the penalty 2. -/
theorem warning_penalty_monotonicity_amended_witness :
    totalWarnings { dockerfile_best_practices := ["EXPOSE missing"] } =
      totalWarnings {} + 1 ∧
    0 ≤ claim_base_score defaultTemplate (fun _ => false)
        { Dockerfile := true, docker_compose_yml := true, gitignore := true,
          tests_dir_exists := true, tests_dir_has_files := true }
      + positive_pattern_weights defaultTemplate.dockerfile_quality
      + positive_pattern_weights defaultTemplate.compose_quality
      - (totalWarnings { dockerfile_best_practices := ["EXPOSE missing"] } : Int)
          * defaultScoring.warning_penalty ∧
    calculate_score defaultTemplate defaultScoring (fun _ => false)
        { Dockerfile := true, docker_compose_yml := true, gitignore := true,
          tests_dir_exists := true, tests_dir_has_files := true } {}
      - calculate_score defaultTemplate defaultScoring (fun _ => false)
        { Dockerfile := true, docker_compose_yml := true, gitignore := true,
          tests_dir_exists := true, tests_dir_has_files := true }
        { dockerfile_best_practices := ["EXPOSE missing"] }
      = defaultScoring.warning_penalty :=
  ⟨by decide, by decide,
    (warning_penalty_monotonicity_amended (fun _ => false)
      { Dockerfile := true, docker_compose_yml := true, gitignore := true,
        tests_dir_exists := true, tests_dir_has_files := true }
      {} { dockerfile_best_practices := ["EXPOSE missing"] }
      (by decide) (by decide)).1⟩

/-! ## Claim C4: per-pattern warning polarity of the config-quality audits -/

/-- The warnings one template pattern contributes in the Dockerfile audit's
template branch. -/
def dockerfilePatternEmission (research : String → String → Bool)
    (content : String) (p : QualityPattern) : List String :=
  if optStrTruthy p.regex then
    if optStrTruthy p.warning && !research (p.regex.getD "") content then
      [p.warning.getD ""]
    else if optStrTruthy p.warning && research (p.regex.getD "") content then
      [p.warning.getD ""]
    else []
  else []

/-- An accumulator loop whose step appends a per-element list computes the
initial list followed by the concatenation of the per-element lists. -/
theorem foldl_step_append {α β : Type} (step : List β → α → List β)
    (g : α → List β) (hstep : ∀ (ws : List β) (x : α), step ws x = ws ++ g x) :
    ∀ (l : List α) (ws : List β), l.foldl step ws = ws ++ (l.map g).flatten := by
  intro l
  induction l with
  | nil => intro ws; simp
  | cons x xs ih =>
    intro ws
    rw [List.foldl_cons, hstep, ih, List.map_cons, List.flatten_cons,
      List.append_assoc]

/-- The Dockerfile-audit loop step equals appending
`dockerfilePatternEmission`. -/
theorem dockerfile_step_eq (research : String → String → Bool)
    (content : String) (ws : List String) (p : QualityPattern) :
    (if optStrTruthy p.regex then
      if optStrTruthy p.warning && !research (p.regex.getD "") content then
        ws ++ [p.warning.getD ""]
      else if optStrTruthy p.warning && research (p.regex.getD "") content then
        ws ++ [p.warning.getD ""]
      else ws
    else ws)
    = ws ++ dockerfilePatternEmission research content p := by
  unfold dockerfilePatternEmission
  split_ifs <;> simp

/-- C4 (code behaviour at the failing input, generalised): in the Dockerfile
audit's template branch, *every* pattern that has both a regex and a warning
emits its warning for every readable content and every `re.search` outcome —
when the regex is found *and* when it is absent (`if not search: append`
followed by `elif search: append`).  This contradicts the claimed per-pattern
polarity ("never in both cases for the same pattern"), and the repository's
own test `test_audit_dockerfile_no_warnings` (which expects zero warnings
from a clean Dockerfile). -/
theorem dockerfile_pattern_warns_in_both_polarities
    (t : StructureTemplate) (fq : FileQuality) (p : QualityPattern)
    (research : String → String → Bool) (content : String)
    (hq : t.dockerfile_quality = some fq) (hp : p ∈ fq.patterns)
    (hr : optStrTruthy p.regex = true) (hw : optStrTruthy p.warning = true) :
    p.warning.getD "" ∈ audit_dockerfile research t (some (some content)) := by
  have hred : audit_dockerfile research t (some (some content)) =
      fq.patterns.foldl (fun ws p =>
        if optStrTruthy p.regex then
          if optStrTruthy p.warning && !research (p.regex.getD "") content then
            ws ++ [p.warning.getD ""]
          else if optStrTruthy p.warning && research (p.regex.getD "") content then
            ws ++ [p.warning.getD ""]
          else ws
        else ws) [] := by
    unfold audit_dockerfile
    rw [hq]
  rw [hred, foldl_step_append _ (dockerfilePatternEmission research content)
    (dockerfile_step_eq research content)]
  simp only [List.nil_append]
  apply List.mem_flatten.mpr
  refine ⟨dockerfilePatternEmission research content p,
    List.mem_map_of_mem _ hp, ?_⟩
  unfold dockerfilePatternEmission
  rw [hr, hw]
  cases hres : research (p.regex.getD "") content <;> simp [hres]

/-- Witness for C4 at the failing input: the default template's
`avoid_copy_all` pattern and the clean Dockerfile content of the repository's
own `test_audit_dockerfile_no_warnings` (which contains no `COPY . .`, so
`re.search` is genuinely false there, as the oracle `research0` reports) —
the warning is emitted anyway. -/
theorem dockerfile_pattern_warns_witness :
    defaultTemplate.dockerfile_quality = some defaultDockerfileQuality ∧
    avoidCopyAllPattern ∈ defaultDockerfileQuality.patterns ∧
    optStrTruthy avoidCopyAllPattern.regex = true ∧
    optStrTruthy avoidCopyAllPattern.warning = true ∧
    "uses COPY . . without .dockerignore" ∈
      audit_dockerfile research0 defaultTemplate
        (some (some "FROM python:3.9-slim\nEXPOSE 8000\nCOPY app.py .\n")) :=
  ⟨rfl, by decide, by decide, by decide,
    dockerfile_pattern_warns_in_both_polarities defaultTemplate
      defaultDockerfileQuality avoidCopyAllPattern research0
      "FROM python:3.9-slim\nEXPOSE 8000\nCOPY app.py .\n"
      rfl (by decide) (by decide) (by decide)⟩

/-! ## Claim C5: architecture score formula, zero-compliance boundary, bands -/

/-- C5: the architecture score is
`max(0, 20·[DRY] + 25·[TDD] + 20·[integration] + 15·[faker] + 20·[scalability]
− 5·violations)`; a directory with zero compliant principles produces five
violations, score 0 and status CRITICAL; and the five status bands are cut
exactly at 80/60/40/20. -/
theorem architecture_score_formula_and_bands :
    (∀ (drp tdd integration faker scalability : Bool) (violations : Nat),
      calculate_architecture_score drp tdd integration faker scalability violations =
        max 0 ((if drp then (20 : Int) else 0) + (if tdd then 25 else 0) +
          (if integration then 20 else 0) + (if faker then 15 else 0) +
          (if scalability then 20 else 0) - 5 * (violations : Int))) ∧
    ((detect_architecture_violations false false false false false).length = 5 ∧
      architecture_score_of_flags false false false false false = 0 ∧
      determine_architecture_status
        (architecture_score_of_flags false false false false false) = "CRITICAL") ∧
    (∀ score : Int,
      (determine_architecture_status score = "EXCELLENT" ↔ 80 ≤ score) ∧
      (determine_architecture_status score = "GOOD" ↔ 60 ≤ score ∧ score < 80) ∧
      (determine_architecture_status score = "FAIR" ↔ 40 ≤ score ∧ score < 60) ∧
      (determine_architecture_status score = "POOR" ↔ 20 ≤ score ∧ score < 40) ∧
      (determine_architecture_status score = "CRITICAL" ↔ score < 20)) := by
  refine ⟨?_, ⟨by decide, by decide, by decide⟩, ?_⟩
  · intro drp tdd integration faker scalability violations
    cases drp <;> cases tdd <;> cases integration <;> cases faker <;>
      cases scalability <;>
      simp [calculate_architecture_score] <;> congr 1 <;> ring
  · intro score
    unfold determine_architecture_status
    split_ifs <;> simp_all <;> omega

/-! ## Claim C6: the directory-existence check is the only hard failure -/

/-- C6: `inspect_microservice` fails (raises the `ValueError`-equivalent) if
and only if the target directory does not exist; for every existing
directory — whatever files are missing or unreadable — it returns a report. -/
theorem inspect_fails_iff_directory_missing
    (research : String → String → Bool) (service : String) (fs : SvcFS) :
    (∃ msg, inspect_microservice research service fs = .error msg) ↔
      fs.dirExists = false := by
  rcases fs with ⟨de, d, c, g, t⟩
  cases de
  · simp [inspect_microservice]
  · simp [inspect_microservice]

/-! ## Claim C7: the template loader always succeeds -/

/-- C7: `load_templates` never raises: for every outcome of the fallible
read/parse/validate work it either hands back the parsed configuration or
falls back to the hard-coded `_create_default_config()`. -/
theorem load_templates_never_fails (parsed : Except String TemplateConfig) :
    load_templates parsed = create_default_config ∨
      Except.ok (load_templates parsed) = parsed := by
  cases parsed with
  | ok config => exact Or.inr rfl
  | error e => exact Or.inl rfl

/-! ## Claim C8: the Django entrypoint.sh exception -/

/-- C8: with the shell-script rule enabled and `entrypoint.sh` among its
allowed exceptions, `can_create_file` accepts a file named `entrypoint.sh` if
and only if it sits directly in the service root *and* at least one
configured Django marker exists in that service directory; in particular an
`entrypoint.sh` in any subdirectory is rejected even with the marker
present. -/
theorem entrypoint_accepted_iff_root_and_django
    (policy : FileCreationPolicy) (fileParent servicePath : List String)
    (fileContent : Option (Option String)) (indicatorExists : String → Bool)
    (hEnabled : policy.shell_scripts.enabled = true)
    (hExc : policy.shell_scripts.allowed_exceptions.contains "entrypoint.sh" = true) :
    (can_create_file policy fileParent "entrypoint.sh" servicePath fileContent
      indicatorExists).1 = true ↔
      (fileParent = servicePath ∧
        (djangoIndicators policy.shell_scripts).any indicatorExists = true) := by
  have hmk : is_makefile "entrypoint.sh" = false := by decide
  have hsh : is_shell_script "entrypoint.sh" = true := by decide
  unfold can_create_file is_legitimate_django_entrypoint
  rw [hmk, hsh, hEnabled, hExc]
  by_cases hps : fileParent = servicePath <;> simp [hps] <;>
    split_ifs with hdj <;> simp [hdj]

/-- Witness for C8 with the repository's default policy: `entrypoint.sh`
directly in the service root of a directory that has `manage.py` is
accepted. -/
theorem entrypoint_accepted_witness :
    defaultFilePreventionPolicy.shell_scripts.enabled = true ∧
    defaultFilePreventionPolicy.shell_scripts.allowed_exceptions.contains
      "entrypoint.sh" = true ∧
    (can_create_file defaultFilePreventionPolicy ["app", "srv"] "entrypoint.sh"
      ["app", "srv"] none (fun s => s == "manage.py")).1 = true :=
  ⟨by decide, by decide,
    (entrypoint_accepted_iff_root_and_django defaultFilePreventionPolicy
      ["app", "srv"] ["app", "srv"] none (fun s => s == "manage.py")
      (by decide) (by decide)).mpr ⟨rfl, by decide⟩⟩

/-! ## Claim C9: an allowed-exception substring disarms the path rule -/

/-- C9: whenever the candidate file's content contains at least one
allowed-exception substring of the path-prevention rule,
`_has_problematic_relative_paths` is false — regardless of which blocked
patterns the content also contains, because `_is_allowed_relative_path` scans
the whole content for the exceptions and ignores the matched pattern — and
hence `can_create_file` never rejects the file under the path-prevention
rule (with no other rule applicable it accepts outright). -/
theorem path_exception_disarms_path_rule
    (rule : PathPreventionRule) (content : String) (policy : FileCreationPolicy)
    (fileParent servicePath : List String) (filename : String)
    (indicatorExists : String → Bool)
    (hexc : rule.allowed_exceptions.any (fun exc => strContains content exc) = true) :
    has_problematic_relative_paths rule (some (some content)) = false ∧
    (policy.path_prevention = rule → is_makefile filename = false →
      is_shell_script filename = false → policy.other_restricted = [] →
      can_create_file policy fileParent filename servicePath
        (some (some content)) indicatorExists = (true, "", [])) := by
  have hmain : has_problematic_relative_paths rule (some (some content)) = false := by
    unfold has_problematic_relative_paths is_allowed_relative_path
    simp [hexc]
  refine ⟨hmain, ?_⟩
  intro hrule hmk hsh hother
  unfold can_create_file
  rw [hmk, hsh, hrule, hmain, hother]
  simp

/-- Witness for C9: a file whose content contains both the blocked pattern
`../` (and `./`, `from .`) and the allowed exception `from . import` passes
the path rule, and with the default policy is accepted outright. -/
theorem path_exception_disarms_witness :
    defaultPathRule.allowed_exceptions.any
      (fun exc => strContains "x = open(\"../config\")\nfrom . import helpers\n" exc)
      = true ∧
    has_problematic_relative_paths defaultPathRule
      (some (some "x = open(\"../config\")\nfrom . import helpers\n")) = false ∧
    can_create_file defaultFilePreventionPolicy ["srv"] "notes.txt" ["srv"]
      (some (some "x = open(\"../config\")\nfrom . import helpers\n"))
      (fun _ => false) = (true, "", []) :=
  ⟨by decide,
    (path_exception_disarms_path_rule defaultPathRule
      "x = open(\"../config\")\nfrom . import helpers\n"
      defaultFilePreventionPolicy ["srv"] ["srv"] "notes.txt" (fun _ => false)
      (by decide)).1,
    (path_exception_disarms_path_rule defaultPathRule
      "x = open(\"../config\")\nfrom . import helpers\n"
      defaultFilePreventionPolicy ["srv"] ["srv"] "notes.txt" (fun _ => false)
      (by decide)).2 rfl (by decide) (by decide) rfl⟩

/-! ## Claim C10: the path rule cannot block absent or unreadable files -/

/-- C10: a candidate path that does not exist on disk, or whose content
cannot be read, is never flagged by `_has_problematic_relative_paths`
(both early returns yield False), so `can_create_file` never rejects a
genuinely to-be-created file under the path-prevention rule; with no other
rule applicable it accepts outright. -/
theorem path_rule_never_blocks_missing_file
    (rule : PathPreventionRule) (policy : FileCreationPolicy)
    (fileParent servicePath : List String) (filename : String)
    (indicatorExists : String → Bool) (fileContent : Option (Option String))
    (hmissing : fileContent = none ∨ fileContent = some none) :
    has_problematic_relative_paths rule fileContent = false ∧
    (is_makefile filename = false → is_shell_script filename = false →
      policy.other_restricted = [] →
      can_create_file policy fileParent filename servicePath fileContent
        indicatorExists = (true, "", [])) := by
  have hmain : ∀ r : PathPreventionRule,
      has_problematic_relative_paths r fileContent = false := by
    intro r
    rcases hmissing with h | h <;> rw [h] <;> rfl
  refine ⟨hmain rule, ?_⟩
  intro hmk hsh hother
  unfold can_create_file
  rw [hmk, hsh, hmain policy.path_prevention, hother]
  simp

/-- Witness for C10: a not-yet-existing `notes.txt` passes the path rule and
is accepted outright under the default policy. -/
theorem path_rule_missing_file_witness :
    has_problematic_relative_paths defaultPathRule none = false ∧
    can_create_file defaultFilePreventionPolicy ["srv"] "notes.txt" ["srv"]
      none (fun _ => false) = (true, "", []) :=
  ⟨(path_rule_never_blocks_missing_file defaultPathRule
      defaultFilePreventionPolicy ["srv"] ["srv"] "notes.txt" (fun _ => false)
      none (Or.inl rfl)).1,
    (path_rule_never_blocks_missing_file defaultPathRule
      defaultFilePreventionPolicy ["srv"] ["srv"] "notes.txt" (fun _ => false)
      none (Or.inl rfl)).2 (by decide) (by decide) rfl⟩
